import Mathlib

/-!
Verification development for the rock5 SOCKS5 proxy server.

The embedding models `handle_client` and `send_reply` from `src/main.rs` and
`get_config` from `src/config.rs`.  A client session is modelled as a
deterministic computation over:
  * the incoming byte stream (a `List Nat` of byte values),
  * a write plan injecting the outcome of each `write_all` call in order
    (`none` = the write succeeds, `some e` = the write fails with `e`),
  * an environment `Env` supplying the outcomes of the operating-system calls
    (`lookup_host`, `TcpStream::connect`, `local_addr`, `copy_bidirectional`).
The observable behaviour of a session is the chronological list of byte
buffers successfully written to the client, the list of emitted events
(name resolution, connect attempts, relay start), and the session's
`Result` value.
-/

-- Constants from src/main.rs.
def SOCKS_VERSION : Nat := 0x05
def NO_AUTHENTICATION_REQUIRED : Nat := 0x00
def CONNECT_COMMAND : Nat := 0x01
def RSV : Nat := 0x00
def ATYP_IPV4 : Nat := 0x01
def ATYP_DOMAIN_NAME : Nat := 0x03
def ATYP_IPV6 : Nat := 0x04
def REP_SUCCEEDED : Nat := 0x00
def REP_GENERAL_FAILURE : Nat := 0x01

/-- Error kinds of `std::io::ErrorKind` used by the program (`other` stands
for every kind the program does not match on explicitly). -/
inductive IOErrorKind where
  | invalidData
  | unsupported
  | addrNotAvailable
  | connectionRefused
  | timedOut
  | unexpectedEof
  | brokenPipe
  | other (code : Nat)
deriving DecidableEq

/-- Model of `std::io::Error`: a kind together with its message. -/
structure IOError where
  kind : IOErrorKind
  msg : String
deriving DecidableEq

/-- Error produced by `read_exact` when the stream ends early. -/
def eofError : IOError := ⟨.unexpectedEof, "early eof"⟩

/-- Model of `std::net::IpAddr`: raw address octets tagged V4 or V6. -/
inductive IpAddr where
  | v4 (octets : List Nat)
  | v6 (octets : List Nat)
deriving DecidableEq

/-- Model of `std::net::SocketAddr`. -/
structure SocketAddr where
  ip : IpAddr
  port : Nat
deriving DecidableEq

/-- The address `SocketAddr::new(IpAddr::V4(Ipv4Addr::UNSPECIFIED), 0)`,
that is `0.0.0.0:0`, used for failure replies in `handle_client`. -/
def UNSPECIFIED_ADDR : SocketAddr := ⟨.v4 [0, 0, 0, 0], 0⟩

/-- The parsed target of a CONNECT request (`target_addr` in the source;
the source stores it as a `String`, here the three cases are kept apart,
the string formatting being absorbed into the resolution oracle). -/
inductive TargetAddr where
  | ipv4 (octets : List Nat)
  | domain (name : String)
  | ipv6 (octets : List Nat)
deriving DecidableEq

-- UTF-8 lossy decoding, mirroring Rust's `String::from_utf8_lossy`:
-- every maximal invalid subpart is replaced by one U+FFFD, and a
-- truncated sequence at the end of the input by a single U+FFFD.

/-- Continuation-byte test: `0x80 ≤ b ≤ 0xBF`. -/
def isCont (b : Nat) : Bool := 0x80 ≤ b && b ≤ 0xBF

/-- Admissible second byte of a three-byte sequence starting with `b0`. -/
def cont3First (b0 b1 : Nat) : Bool :=
  if b0 = 0xE0 then 0xA0 ≤ b1 && b1 ≤ 0xBF
  else if b0 = 0xED then 0x80 ≤ b1 && b1 ≤ 0x9F
  else 0x80 ≤ b1 && b1 ≤ 0xBF

/-- Admissible second byte of a four-byte sequence starting with `b0`. -/
def cont4First (b0 b1 : Nat) : Bool :=
  if b0 = 0xF0 then 0x90 ≤ b1 && b1 ≤ 0xBF
  else if b0 = 0xF4 then 0x80 ≤ b1 && b1 ≤ 0x8F
  else 0x80 ≤ b1 && b1 ≤ 0xBF

/-- The replacement character U+FFFD. -/
def replacementChar : Char := Char.ofNat 0xFFFD

/-- One step of lossy decoding: given the first byte and the remaining
bytes, produce the decoded character (U+FFFD for an invalid maximal
subpart) and the bytes to continue from, following the maximal-subpart
resynchronisation of Rust's UTF-8 validator (a sequence truncated by the
end of the input yields a single U+FFFD consuming the whole tail). -/
def utf8Step (b0 : Nat) (rest : List Nat) : Char × List Nat :=
  if b0 ≤ 0x7F then (Char.ofNat b0, rest)
  else if 0xC2 ≤ b0 && b0 ≤ 0xDF then
    match rest with
    | [] => (replacementChar, [])
    | b1 :: rest1 =>
      if isCont b1 then
        (Char.ofNat ((b0 % 0x20) * 0x40 + b1 % 0x40), rest1)
      else (replacementChar, b1 :: rest1)
  else if 0xE0 ≤ b0 && b0 ≤ 0xEF then
    match rest with
    | [] => (replacementChar, [])
    | b1 :: rest1 =>
      if cont3First b0 b1 then
        match rest1 with
        | [] => (replacementChar, [])
        | b2 :: rest2 =>
          if isCont b2 then
            (Char.ofNat ((b0 % 0x10) * 0x1000 + (b1 % 0x40) * 0x40 + b2 % 0x40),
             rest2)
          else (replacementChar, b2 :: rest2)
      else (replacementChar, b1 :: rest1)
  else if 0xF0 ≤ b0 && b0 ≤ 0xF4 then
    match rest with
    | [] => (replacementChar, [])
    | b1 :: rest1 =>
      if cont4First b0 b1 then
        match rest1 with
        | [] => (replacementChar, [])
        | b2 :: rest2 =>
          if isCont b2 then
            match rest2 with
            | [] => (replacementChar, [])
            | b3 :: rest3 =>
              if isCont b3 then
                (Char.ofNat ((b0 % 8) * 0x40000 + (b1 % 0x40) * 0x1000
                    + (b2 % 0x40) * 0x40 + b3 % 0x40), rest3)
              else (replacementChar, b3 :: rest3)
          else (replacementChar, b2 :: rest2)
      else (replacementChar, b1 :: rest1)
  else (replacementChar, rest)

/-- A decoding step never lengthens the remaining input. -/
theorem utf8Step_length_le (b0 : Nat) (rest : List Nat) :
    (utf8Step b0 rest).2.length ≤ rest.length := by
  unfold utf8Step
  repeat' split
  all_goals simp_all
  all_goals omega

/-- Decode a byte list to characters with U+FFFD substitution
(`String::from_utf8_lossy`).  The fuel argument only bounds the
recursion depth: each step consumes at least one byte
(`utf8Step_length_le`), so fuel equal to the list length never runs
out. -/
def lossyAux : Nat → List Nat → List Char
  | _, [] => []
  | 0, _ :: _ => []
  | fuel + 1, b0 :: rest =>
    (utf8Step b0 rest).1 :: lossyAux fuel (utf8Step b0 rest).2

/-- Model of `String::from_utf8_lossy(..).to_string()`. -/
def utf8Lossy (bs : List Nat) : String := ⟨lossyAux bs.length bs⟩

/-- Split off exactly `n` leading bytes, or `none` when the list is shorter
(the model of `read_exact` filling a buffer of size `n`). -/
def takeExact : Nat → List Nat → Option (List Nat × List Nat)
  | 0, l => some ([], l)
  | _ + 1, [] => none
  | n + 1, b :: l =>
    match takeExact n l with
    | some (bs, rest) => some (b :: bs, rest)
    | none => none

/-- Outcomes of address decoding that are handled differently by the
caller: an early end of stream is propagated as an I/O error, an
unsupported address type draws a failure reply first. -/
inductive DecodeErr where
  | eof
  | unsupportedAtyp
deriving DecidableEq

/-- Address decoding of `handle_client` (src/main.rs lines 130-165, the
`match atyp` over `ATYP_IPV4`/`ATYP_DOMAIN_NAME`/`ATYP_IPV6`): reads 4
raw octets, or a 1-byte length followed by that many UTF-8-lossily
decoded domain bytes, or 16 raw octets; any other address-type value is
rejected without consuming address bytes. -/
def decodeAddress (atyp : Nat) (input : List Nat) :
    Except DecodeErr (TargetAddr × List Nat) :=
  if atyp = ATYP_IPV4 then
    match takeExact 4 input with
    | some (bs, rest) => .ok (.ipv4 bs, rest)
    | none => .error .eof
  else if atyp = ATYP_DOMAIN_NAME then
    match input with
    | [] => .error .eof
    | len :: rest =>
      match takeExact len rest with
      | some (bs, rest1) => .ok (.domain (utf8Lossy bs), rest1)
      | none => .error .eof
  else if atyp = ATYP_IPV6 then
    match takeExact 16 input with
    | some (bs, rest) => .ok (.ipv6 bs, rest)
    | none => .error .eof
  else .error .unsupportedAtyp

/-- Observable session events: the name-resolution call (with the parsed
target and port), each outbound connect attempt, and the start of the
relay stage. -/
inductive Event where
  | lookup (target : TargetAddr) (port : Nat)
  | connectAttempt (addr : SocketAddr)
  | relayStarted
deriving DecidableEq

/-- Session state threaded through the computation: the unread input
bytes, the buffers written so far, the remaining write plan, and the
emitted events. -/
structure St where
  input : List Nat
  writes : List (List Nat)
  plan : List (Option IOError)
  events : List Event
deriving DecidableEq

/-- Environment oracle supplying the outcomes of the OS calls made by
`handle_client`. -/
structure Env where
  lookupResult : TargetAddr → Nat → Except IOError (List SocketAddr)
  connectResult : SocketAddr → Except IOError Unit
  localAddr : Except IOError SocketAddr
  relayResult : Except IOError (Nat × Nat)

/-- The session computation: state in, state out plus a `Result`. -/
def SessM (α : Type) : Type := St → St × Except IOError α

def SessM.pure {α : Type} (a : α) : SessM α := fun s => (s, .ok a)

def SessM.bind {α β : Type} (m : SessM α) (f : α → SessM β) : SessM β :=
  fun s =>
    match m s with
    | (s1, .ok a) => f a s1
    | (s1, .error e) => (s1, .error e)

/-- Model of `return Err(e)` / the `?` operator on an error. -/
def SessM.throw {α : Type} (e : IOError) : SessM α := fun s => (s, .error e)

/-- Model of applying `?` to an environment-supplied `Result`. -/
def SessM.liftExcept {α : Type} (r : Except IOError α) : SessM α :=
  fun s => (s, r)

/-- Model of `read_exact` into a buffer of size `n`. -/
def readExact (n : Nat) : SessM (List Nat) := fun s =>
  match takeExact n s.input with
  | some (bs, rest) => ({ s with input := rest }, .ok bs)
  | none => (s, .error eofError)

/-- Model of `write_all`: the next entry of the write plan decides whether
the write succeeds (recording the buffer) or fails with an error. -/
def writeAll (bs : List Nat) : SessM Unit := fun s =>
  match s.plan with
  | [] => ({ s with writes := s.writes ++ [bs] }, .ok ())
  | none :: rest => ({ s with writes := s.writes ++ [bs], plan := rest }, .ok ())
  | some e :: rest => ({ s with plan := rest }, .error e)

/-- Record an observable event. -/
def emit (ev : Event) : SessM Unit := fun s =>
  ({ s with events := s.events ++ [ev] }, .ok ())

/-- Big-endian encoding of a 16-bit port (`put_u16`). -/
def putU16 (p : Nat) : List Nat := [p / 256 % 256, p % 256]

/-- The bytes built by `send_reply` (src/main.rs lines 230-255): version,
reply code, reserved 0, then ATYP tag with the raw address octets, then
the 2-byte big-endian port. -/
def encodeReply (repCode : Nat) (bindAddr : SocketAddr) : List Nat :=
  [SOCKS_VERSION, repCode, RSV] ++
  (match bindAddr.ip with
   | .v4 o => ATYP_IPV4 :: o
   | .v6 o => ATYP_IPV6 :: o) ++
  putU16 bindAddr.port

/-- Model of `send_reply`: build the reply bytes and `write_all` them. -/
def send_reply (repCode : Nat) (bindAddr : SocketAddr) : SessM Unit :=
  writeAll (encodeReply repCode bindAddr)

/-- The reply-code mapping applied to a failed outbound connect
(src/main.rs lines 189-194): refused to 0x05, address-unreachable to
0x04, timeout to 0x06, everything else to general failure 0x01. -/
def connectErrorReplyCode (k : IOErrorKind) : Nat :=
  match k with
  | .connectionRefused => 0x05
  | .addrNotAvailable => 0x04
  | .timedOut => 0x06
  | _ => REP_GENERAL_FAILURE

/-- Address decoding inside the session: on an unsupported address type a
GeneralFailure reply is written (its own failure propagating) before the
session errors, exactly as in src/main.rs lines 160-164. -/
def decodeAddressM (atyp : Nat) : SessM TargetAddr := fun s =>
  match decodeAddress atyp s.input with
  | .ok (t, rest) => ({ s with input := rest }, .ok t)
  | .error .eof => (s, .error eofError)
  | .error .unsupportedAtyp =>
    match send_reply REP_GENERAL_FAILURE UNSPECIFIED_ADDR s with
    | (s1, .ok _) => (s1, .error ⟨.invalidData, "Unsupported address type"⟩)
    | (s1, .error e) => (s1, .error e)

/-- Stages 3-5 of `handle_client` after resolution succeeded with a first
address: connect attempt with error mapping, success reply bound to the
outbound socket's local address, then the relay (whose own errors are
swallowed). -/
def connectStage (env : Env) (targetSocketAddr : SocketAddr) : SessM Unit :=
  SessM.bind (emit (.connectAttempt targetSocketAddr)) fun _ =>
  match env.connectResult targetSocketAddr with
  | .error e =>
    SessM.bind (send_reply (connectErrorReplyCode e.kind) targetSocketAddr)
      fun _ => SessM.throw e
  | .ok _ =>
    SessM.bind (SessM.liftExcept env.localAddr) fun bindAddr =>
    SessM.bind (send_reply REP_SUCCEEDED bindAddr) fun _ =>
    SessM.bind (emit .relayStarted) fun _ =>
    match env.relayResult with
    | .ok _ => SessM.pure ()
    | .error _ => SessM.pure ()

/-- Stage 3 head of `handle_client`: resolve the target (the `?` on
`lookup_host` propagating a resolution-call error), reply GeneralFailure
bound to `0.0.0.0:0` when the resolution yields no address, otherwise
proceed to the connect stage with the first resolved address. -/
def afterRequest (env : Env) (targetAddr : TargetAddr) (targetPort : Nat) :
    SessM Unit :=
  SessM.bind (emit (.lookup targetAddr targetPort)) fun _ =>
  SessM.bind (SessM.liftExcept (env.lookupResult targetAddr targetPort))
    fun hosts =>
  match hosts.head? with
  | none =>
    SessM.bind (send_reply REP_GENERAL_FAILURE UNSPECIFIED_ADDR) fun _ =>
    SessM.throw ⟨.addrNotAvailable, "Could not resolve target address"⟩
  | some targetSocketAddr => connectStage env targetSocketAddr

/-- Stage 2 of `handle_client`: read and validate the 4-byte request
header (version, then reserved byte, then command, in source order),
decode the target address and the big-endian port, then resolve and
connect. -/
def requestStage (env : Env) : SessM Unit :=
  SessM.bind (readExact 4) fun requestHeader =>
  if requestHeader.getD 0 0 ≠ SOCKS_VERSION then
    SessM.throw ⟨.invalidData, "Invalid SOCKS version in request"⟩
  else if requestHeader.getD 2 0 ≠ RSV then
    SessM.throw ⟨.invalidData, "Non-zero RSV byte"⟩
  else if requestHeader.getD 1 0 ≠ CONNECT_COMMAND then
    SessM.bind (send_reply REP_GENERAL_FAILURE UNSPECIFIED_ADDR) fun _ =>
    SessM.throw ⟨.unsupported, "Unsupported command"⟩
  else
    SessM.bind (decodeAddressM (requestHeader.getD 3 0)) fun targetAddr =>
    SessM.bind (readExact 2) fun portBuf =>
    afterRequest env targetAddr (portBuf.getD 0 0 * 256 + portBuf.getD 1 0)

/-- Stage 1 of `handle_client` (method selection) followed by the request
stage: version check, non-zero method count, rejection reply `(5, 0xFF)`
when no-authentication is not offered, acceptance reply `(5, 0)`
otherwise. -/
def handleClientM (env : Env) : SessM Unit :=
  SessM.bind (readExact 2) fun handshakeBuf =>
  if handshakeBuf.getD 0 0 ≠ SOCKS_VERSION then
    SessM.throw ⟨.invalidData, "Unsupported SOCKS version"⟩
  else if handshakeBuf.getD 1 0 = 0 then
    SessM.throw ⟨.invalidData, "No methods offered"⟩
  else
    SessM.bind (readExact (handshakeBuf.getD 1 0)) fun methodsBuf =>
    if !(methodsBuf.contains NO_AUTHENTICATION_REQUIRED) then
      SessM.bind (writeAll [SOCKS_VERSION, 0xFF]) fun _ =>
      SessM.throw ⟨.unsupported, "No supported authentication method"⟩
    else
      SessM.bind (writeAll [SOCKS_VERSION, NO_AUTHENTICATION_REQUIRED]) fun _ =>
      requestStage env

/-- The observable outcome of a session. -/
structure HandleResult where
  writes : List (List Nat)
  events : List Event
  result : Except IOError Unit

/-- Run `handle_client` on an input stream with a write plan under an
environment. -/
def handle_client (env : Env) (input : List Nat)
    (plan : List (Option IOError)) : HandleResult :=
  match handleClientM env ⟨input, [], plan, []⟩ with
  | (s, r) => ⟨s.writes, s.events, r⟩

-- Configuration loading, from src/config.rs.

/-- The configuration section name (`MAIN_CFG` in src/config.rs). -/
def MAIN_CFG : String := "config"

/-- Model of the `Config` struct of src/config.rs. -/
structure Config where
  host : String
  port : Int
deriving DecidableEq

/-- Model of `Config::get_host_str`. -/
def get_host_str (c : Config) : String := c.host ++ ":" ++ toString c.port

/-- Model of `str::parse::<i32>`: an optional sign followed by at least
one ASCII digit, the value lying in the `i32` range. -/
def parseI32 (s : String) : Option Int :=
  let fin : Bool → List Char → Option Int := fun neg ds =>
    if ds = [] then none
    else if ds.all (fun c => '0' ≤ c && c ≤ '9') then
      let v : Int := ds.foldl (fun a c => a * 10 + Int.ofNat (c.toNat - 48)) 0
      let iv := if neg then -v else v
      if -(2 ^ 31) ≤ iv ∧ iv ≤ 2 ^ 31 - 1 then some iv else none
    else none
  match s.data with
  | '-' :: rest => fin true rest
  | '+' :: rest => fin false rest
  | cs => fin false cs

/-- First-match lookup in an association list, modelling the map reads
`res.get(MAIN_CFG)`, `gc.get("port")` and `gc.get("host")` of
src/config.rs. -/
def mapGet {α : Type} (m : List (String × α)) (k : String) : Option α :=
  match m with
  | [] => none
  | (k1, v) :: rest => if k1 = k then some v else mapGet rest k

/-- A loaded INI document: each section maps keys to an optional value
(`Ini::load` yields `Map<String, Map<String, Option<String>>>`). -/
def IniDoc : Type := List (String × List (String × Option String))

/-- Outcome of `get_config`: a configuration, or a `panic!` aborting the
process. -/
inductive ConfigOutcome where
  | ok (cfg : Config)
  | fatal (msg : String)
deriving DecidableEq

/-- Model of `get_config` (src/config.rs lines 18-70) over the outcome of
`Ini::load` (the INI file reading and the platform config-directory path
are the external collaborator; `load_result` is `.error` when the file is
missing or unreadable, otherwise the parsed section map).  Defaults are
port 1080 and host `0.0.0.0`; a present `port` value that does not parse
as an `i32` aborts via `panic!`. -/
def get_config (load_result : Except String IniDoc) : ConfigOutcome :=
  let defPort : Int := 1080
  let defHost : String := "0.0.0.0"
  match load_result with
  | .error _ => .ok ⟨defHost, defPort⟩
  | .ok res =>
    match mapGet res MAIN_CFG with
    | none => .ok ⟨defHost, defPort⟩
    | some gc =>
      let portRes : Except String Int :=
        match mapGet gc "port" with
        | none => .ok defPort
        | some none => .ok defPort
        | some (some pstr) =>
          match parseI32 pstr with
          | some pval => .ok pval
          | none => .error "invalid port in config"
      match portRes with
      | .error m => .fatal m
      | .ok p =>
        let h : String :=
          match mapGet gc "host" with
          | none => defHost
          | some none => defHost
          | some (some hs) => hs
        .ok ⟨h, p⟩

/-- Outcome of process startup, up to the point where the listening
socket would be bound. -/
inductive StartupOutcome where
  | aborted (msg : String)
  | listening (addr : String)
deriving DecidableEq

/-- The startup sequence of `main` (src/main.rs lines 36-44): the
configuration is loaded first, so a fatal configuration error aborts
before any socket is bound; otherwise the server listens on
`get_host_str`. -/
def startup (load_result : Except String IniDoc) : StartupOutcome :=
  match get_config load_result with
  | .fatal m => .aborted m
  | .ok cfg => .listening (get_host_str cfg)

-- Shared concrete data for the theorems below.

/-- A sample local address of the outbound socket. -/
def okLocal : SocketAddr := ⟨.v4 [10, 0, 0, 7], 5555⟩

/-- A sample resolved target address. -/
def sampleTarget : SocketAddr := ⟨.v4 [1, 2, 3, 4], 80⟩

/-- An environment in which resolution, connect, `local_addr` and the
relay all succeed. -/
def okEnv : Env :=
  { lookupResult := fun _ _ => .ok [sampleTarget]
    connectResult := fun _ => .ok ()
    localAddr := .ok okLocal
    relayResult := .ok (0, 0) }

/-- An environment in which the target resolves to `tgt` and the connect
attempt fails with `e`. -/
def connectFailEnv (e : IOError) (tgt : SocketAddr) : Env :=
  { okEnv with lookupResult := fun _ _ => .ok [tgt]
               connectResult := fun _ => .error e }

/-- An environment in which the resolution call itself fails with `e`. -/
def lookupErrEnv (e : IOError) : Env :=
  { okEnv with lookupResult := fun _ _ => .error e }

/-- An environment in which resolution succeeds but yields no address. -/
def emptyLookupEnv : Env :=
  { okEnv with lookupResult := fun _ _ => .ok [] }

-- Helper lemmas for reducing session runs on partially symbolic inputs.

@[simp] theorem takeExact_one (a : Nat) (l : List Nat) :
    takeExact 1 (a :: l) = some ([a], l) := rfl

@[simp] theorem takeExact_two (a b : Nat) (l : List Nat) :
    takeExact 2 (a :: b :: l) = some ([a, b], l) := rfl

@[simp] theorem takeExact_four (a b c d : Nat) (l : List Nat) :
    takeExact 4 (a :: b :: c :: d :: l) = some ([a, b, c, d], l) := rfl

@[simp] theorem takeExact_append (l t : List Nat) :
    takeExact l.length (l ++ t) = some (l, t) := by
  induction l with
  | nil => rfl
  | cons b l ih => simp [takeExact, ih]

@[simp] theorem getD_c0 (a : Nat) (l : List Nat) : (a :: l).getD 0 0 = a := rfl

@[simp] theorem getD_c1 (a b : Nat) (l : List Nat) :
    (a :: b :: l).getD 1 0 = b := rfl

@[simp] theorem getD_c2 (a b c : Nat) (l : List Nat) :
    (a :: b :: c :: l).getD 2 0 = c := rfl

@[simp] theorem getD_c3 (a b c d : Nat) (l : List Nat) :
    (a :: b :: c :: d :: l).getD 3 0 = d := rfl

/-- C3: for every error returned by the outbound TCP connect attempt, the
reply code sent to the client is exactly: connection-refused to 0x05,
address-unreachable to 0x04, timeout to 0x06, and every other error kind
to 0x01 (general failure); the connect error itself is the session's
result. -/
theorem C3_connect_error_mapping :
    ∀ (k : IOErrorKind) (msg : String),
      handle_client (connectFailEnv ⟨k, msg⟩ sampleTarget)
          [5, 1, 0, 5, 1, 0, 1, 1, 2, 3, 4, 0, 80] [] =
        ⟨[[SOCKS_VERSION, NO_AUTHENTICATION_REQUIRED],
          encodeReply
            (match k with
             | .connectionRefused => 0x05
             | .addrNotAvailable => 0x04
             | .timedOut => 0x06
             | _ => REP_GENERAL_FAILURE) sampleTarget],
         [.lookup (.ipv4 [1, 2, 3, 4]) 80, .connectAttempt sampleTarget],
         .error ⟨k, msg⟩⟩ := by
  intro k msg
  cases k <;> rfl

/-- C1 counterexample: a session whose connect attempt fails (connection
refused, target resolved to 1.2.3.4:80, no upstream connection ever
established, hence no upstream local address known) receives a failure
reply whose BND.ADDR/BND.PORT carry the resolved target address
1.2.3.4:80, not the unspecified address 0.0.0.0:0. -/
theorem C1_counterexample :
    (handle_client (connectFailEnv ⟨.connectionRefused, "refused"⟩ sampleTarget)
        [5, 1, 0, 5, 1, 0, 1, 1, 2, 3, 4, 0, 80] []).writes =
      [[5, 0], [5, 5, 0, 1, 1, 2, 3, 4, 0, 80]]
    ∧ [5, 5, 0, 1, 1, 2, 3, 4, 0, 80] ≠ encodeReply 0x05 UNSPECIFIED_ADDR :=
  ⟨rfl, by decide⟩

/-- C1 amended: replies rejecting the request before a connect attempt
(unsupported command, unsupported address type, unresolvable target) are
bound to the unspecified address 0.0.0.0:0; the reply for a failed
connect attempt is bound to the resolved target address; the success
reply is bound to the proxy's local address on the outbound socket. -/
theorem C1_reply_addresses :
    (∀ (env : Env) (cmd : Nat) (rest : List Nat), cmd ≠ CONNECT_COMMAND →
      (handle_client env (5 :: 1 :: 0 :: 5 :: cmd :: 0 :: 1 :: rest) []).writes =
        [[SOCKS_VERSION, NO_AUTHENTICATION_REQUIRED],
         encodeReply REP_GENERAL_FAILURE UNSPECIFIED_ADDR])
    ∧ (∀ (env : Env) (atyp : Nat) (rest : List Nat),
        atyp ≠ ATYP_IPV4 → atyp ≠ ATYP_DOMAIN_NAME → atyp ≠ ATYP_IPV6 →
      (handle_client env (5 :: 1 :: 0 :: 5 :: 1 :: 0 :: atyp :: rest) []).writes =
        [[SOCKS_VERSION, NO_AUTHENTICATION_REQUIRED],
         encodeReply REP_GENERAL_FAILURE UNSPECIFIED_ADDR])
    ∧ (∀ (e : IOError) (tgt : SocketAddr),
      (handle_client (connectFailEnv e tgt)
          [5, 1, 0, 5, 1, 0, 1, 9, 9, 9, 9, 0, 80] []).writes =
        [[SOCKS_VERSION, NO_AUTHENTICATION_REQUIRED],
         encodeReply (connectErrorReplyCode e.kind) tgt])
    ∧ (∀ la : SocketAddr,
      (handle_client { okEnv with localAddr := .ok la }
          [5, 1, 0, 5, 1, 0, 1, 9, 9, 9, 9, 0, 80] []).writes =
        [[SOCKS_VERSION, NO_AUTHENTICATION_REQUIRED],
         encodeReply REP_SUCCEEDED la])
    ∧ (handle_client emptyLookupEnv
          [5, 1, 0, 5, 1, 0, 1, 9, 9, 9, 9, 0, 80] []).writes =
        [[SOCKS_VERSION, NO_AUTHENTICATION_REQUIRED],
         encodeReply REP_GENERAL_FAILURE UNSPECIFIED_ADDR] := by
  refine ⟨?_, ?_, ?_, ?_, rfl⟩
  · intro env cmd rest h
    simp only [CONNECT_COMMAND] at h
    simp [handle_client, handleClientM, requestStage, SessM.bind, SessM.throw,
      readExact, writeAll, emit, send_reply, encodeReply, putU16,
      UNSPECIFIED_ADDR, SOCKS_VERSION, NO_AUTHENTICATION_REQUIRED,
      CONNECT_COMMAND, RSV, ATYP_IPV4, ATYP_IPV6, REP_GENERAL_FAILURE, h]
  · intro env atyp rest h1 h3 h4
    simp only [ATYP_IPV4] at h1
    simp only [ATYP_DOMAIN_NAME] at h3
    simp only [ATYP_IPV6] at h4
    simp [handle_client, handleClientM, requestStage, SessM.bind, SessM.throw,
      readExact, writeAll, emit, send_reply, encodeReply, putU16,
      decodeAddressM, decodeAddress, UNSPECIFIED_ADDR,
      SOCKS_VERSION, NO_AUTHENTICATION_REQUIRED, CONNECT_COMMAND, RSV,
      ATYP_IPV4, ATYP_DOMAIN_NAME, ATYP_IPV6, REP_GENERAL_FAILURE,
      h1, h3, h4]
  · intro e tgt
    rfl
  · intro la
    rfl

/-- C1 witness: the pre-connect rejection replies of a concrete session
with command byte 2 and one with address-type byte 9 are bound to
0.0.0.0:0. -/
theorem C1_reply_addresses_witness :
    (handle_client okEnv (5 :: 1 :: 0 :: 5 :: 2 :: 0 :: 1 :: []) []).writes =
      [[SOCKS_VERSION, NO_AUTHENTICATION_REQUIRED],
       encodeReply REP_GENERAL_FAILURE UNSPECIFIED_ADDR]
    ∧ (handle_client okEnv (5 :: 1 :: 0 :: 5 :: 1 :: 0 :: 9 :: []) []).writes =
      [[SOCKS_VERSION, NO_AUTHENTICATION_REQUIRED],
       encodeReply REP_GENERAL_FAILURE UNSPECIFIED_ADDR] :=
  ⟨C1_reply_addresses.1 okEnv 2 [] (by decide),
   C1_reply_addresses.2.1 okEnv 9 [] (by decide) (by decide) (by decide)⟩

/-- C2 counterexample: a domain-name session whose resolution fails (the
resolution call itself returns an error) is closed with that error and
without any REP 0x01 reply: the only bytes ever written are the method
acceptance `(5, 0)`. -/
theorem C2_counterexample :
    handle_client (lookupErrEnv ⟨.other 0, "dns error"⟩)
        [5, 1, 0, 5, 1, 0, 3, 3, 97, 98, 99, 0, 80] [] =
      ⟨[[SOCKS_VERSION, NO_AUTHENTICATION_REQUIRED]],
       [.lookup (.domain "abc") 80],
       .error ⟨.other 0, "dns error"⟩⟩ := rfl

/-- C2 amended: for a domain-name target whose resolution succeeds but
yields zero addresses, the server sends a REP 0x01 reply (bound to
0.0.0.0:0) and closes; when the resolution call itself returns an error,
the session closes propagating that error without sending any reply. -/
theorem C2_resolution_replies :
    (∀ (d : List Nat) (p1 p2 : Nat), d.length ≤ 255 →
      handle_client emptyLookupEnv
          (5 :: 1 :: 0 :: 5 :: 1 :: 0 :: 3 :: d.length :: (d ++ [p1, p2])) [] =
        ⟨[[SOCKS_VERSION, NO_AUTHENTICATION_REQUIRED],
          encodeReply REP_GENERAL_FAILURE UNSPECIFIED_ADDR],
         [.lookup (.domain (utf8Lossy d)) (p1 * 256 + p2)],
         .error ⟨.addrNotAvailable, "Could not resolve target address"⟩⟩)
    ∧ (∀ e : IOError,
      handle_client (lookupErrEnv e)
          [5, 1, 0, 5, 1, 0, 3, 3, 97, 98, 99, 0, 80] [] =
        ⟨[[SOCKS_VERSION, NO_AUTHENTICATION_REQUIRED]],
         [.lookup (.domain "abc") 80],
         .error e⟩) := by
  constructor
  · intro d p1 p2 h
    simp [handle_client, handleClientM, requestStage, afterRequest, SessM.bind,
      SessM.throw, SessM.liftExcept, readExact, writeAll, emit, send_reply,
      encodeReply, putU16, decodeAddressM, decodeAddress, emptyLookupEnv, okEnv,
      SOCKS_VERSION, NO_AUTHENTICATION_REQUIRED, CONNECT_COMMAND, RSV,
      ATYP_IPV4, ATYP_DOMAIN_NAME, ATYP_IPV6, REP_GENERAL_FAILURE]
  · intro e
    rfl

/-- C2 witness: the empty-resolution path on a concrete three-byte domain
draws the general-failure reply bound to 0.0.0.0:0. -/
theorem C2_resolution_replies_witness :
    handle_client emptyLookupEnv
        (5 :: 1 :: 0 :: 5 :: 1 :: 0 :: 3 :: ([97, 98, 99] : List Nat).length
          :: ([97, 98, 99] ++ [0, 80])) [] =
      ⟨[[SOCKS_VERSION, NO_AUTHENTICATION_REQUIRED],
        encodeReply REP_GENERAL_FAILURE UNSPECIFIED_ADDR],
       [.lookup (.domain (utf8Lossy [97, 98, 99])) (0 * 256 + 80)],
       .error ⟨.addrNotAvailable, "Could not resolve target address"⟩⟩ :=
  C2_resolution_replies.1 [97, 98, 99] 0 80 (by decide)

/-- C6 counterexample: on the unsupported-command error path, a failure
of the failure-reply write itself (a broken pipe) is propagated as the
session's error, displacing the original protocol error. -/
theorem C6_counterexample :
    (handle_client okEnv [5, 1, 0, 5, 2, 0, 1]
        [none, some ⟨.brokenPipe, "pipe"⟩]).result =
      .error ⟨.brokenPipe, "pipe"⟩
    ∧ (IOError.mk .brokenPipe "pipe") ≠
      (IOError.mk .unsupported "Unsupported command") :=
  ⟨rfl, by decide⟩

/-- C6 amended: on every error path on which the handler writes a failure
reply (unsupported command, unsupported address type, unresolvable
target, failed connect attempt), a failure of that reply write is
propagated as the session's error, replacing the original
protocol/connect error. -/
theorem C6_reply_write_failure :
    ∀ e : IOError,
      ((handle_client okEnv [5, 1, 0, 5, 2, 0, 1] [none, some e]).result =
        .error e)
      ∧ ((handle_client okEnv [5, 1, 0, 5, 1, 0, 9] [none, some e]).result =
        .error e)
      ∧ ((handle_client emptyLookupEnv [5, 1, 0, 5, 1, 0, 1, 9, 9, 9, 9, 0, 80]
          [none, some e]).result = .error e)
      ∧ ((handle_client (connectFailEnv ⟨.connectionRefused, "refused"⟩ sampleTarget)
          [5, 1, 0, 5, 1, 0, 1, 9, 9, 9, 9, 0, 80] [none, some e]).result =
        .error e) :=
  fun _ => ⟨rfl, rfl, rfl, rfl⟩

/-- C4: for every method-selection request with version 0x05 and a
non-empty method list, if the list contains 0x00 the server writes
`(0x05, 0x00)` and proceeds to the request stage (here: a complete
CONNECT session follows), and if it does not contain 0x00 the server
writes `(0x05, 0xFF)` and terminates the session with an error. -/
theorem C4_method_selection :
    (∀ ms : List Nat, ms ≠ [] → ms.length ≤ 255 →
        ms.contains NO_AUTHENTICATION_REQUIRED = true →
      handle_client okEnv
          (5 :: ms.length :: (ms ++ [5, 1, 0, 1, 9, 9, 9, 9, 0, 80])) [] =
        ⟨[[SOCKS_VERSION, NO_AUTHENTICATION_REQUIRED],
          encodeReply REP_SUCCEEDED okLocal],
         [.lookup (.ipv4 [9, 9, 9, 9]) 80, .connectAttempt sampleTarget,
          .relayStarted],
         .ok ()⟩)
    ∧ (∀ (ms suffix : List Nat) (env : Env), ms ≠ [] → ms.length ≤ 255 →
        ms.contains NO_AUTHENTICATION_REQUIRED = false →
      handle_client env (5 :: ms.length :: (ms ++ suffix)) [] =
        ⟨[[SOCKS_VERSION, 0xFF]], [],
         .error ⟨.unsupported, "No supported authentication method"⟩⟩) := by
  constructor
  · intro ms h1 h2 hc
    simp [NO_AUTHENTICATION_REQUIRED] at hc
    simp [handle_client, handleClientM, requestStage, afterRequest, connectStage,
      SessM.bind, SessM.throw, SessM.pure, SessM.liftExcept, readExact, writeAll,
      emit, send_reply, encodeReply, putU16, decodeAddressM, decodeAddress,
      okEnv, okLocal, sampleTarget, UNSPECIFIED_ADDR,
      SOCKS_VERSION, NO_AUTHENTICATION_REQUIRED, CONNECT_COMMAND, RSV,
      ATYP_IPV4, ATYP_DOMAIN_NAME, ATYP_IPV6, REP_SUCCEEDED, h1, hc]
  · intro ms suffix env h1 h2 hc
    simp [NO_AUTHENTICATION_REQUIRED] at hc
    simp [handle_client, handleClientM, SessM.bind, SessM.throw, readExact,
      writeAll, SOCKS_VERSION, NO_AUTHENTICATION_REQUIRED, h1, hc]

/-- C4 witness: a session offering exactly the no-authentication method
is accepted and served; a session offering only method 0x01 is rejected
with `(0x05, 0xFF)`. -/
theorem C4_method_selection_witness :
    handle_client okEnv
        (5 :: ([0] : List Nat).length :: ([0] ++ [5, 1, 0, 1, 9, 9, 9, 9, 0, 80])) [] =
      ⟨[[SOCKS_VERSION, NO_AUTHENTICATION_REQUIRED],
        encodeReply REP_SUCCEEDED okLocal],
       [.lookup (.ipv4 [9, 9, 9, 9]) 80, .connectAttempt sampleTarget,
        .relayStarted],
       .ok ()⟩
    ∧ handle_client okEnv (5 :: ([1] : List Nat).length :: ([1] ++ [])) [] =
      ⟨[[SOCKS_VERSION, 0xFF]], [],
       .error ⟨.unsupported, "No supported authentication method"⟩⟩ :=
  ⟨C4_method_selection.1 [0] (by decide) (by decide) (by decide),
   C4_method_selection.2 [1] [] okEnv (by decide) (by decide) (by decide)⟩

/-- C5: for every well-formed request whose command byte is not 0x01, the
server sends a REP 0x01 reply (bound to 0.0.0.0:0) and closes the
session with an error, with no resolution or connect event, whatever the
environment. -/
theorem C5_unsupported_command :
    ∀ (env : Env) (cmd atyp : Nat) (rest : List Nat), cmd ≠ CONNECT_COMMAND →
      handle_client env (5 :: 1 :: 0 :: 5 :: cmd :: 0 :: atyp :: rest) [] =
        ⟨[[SOCKS_VERSION, NO_AUTHENTICATION_REQUIRED],
          encodeReply REP_GENERAL_FAILURE UNSPECIFIED_ADDR],
         [], .error ⟨.unsupported, "Unsupported command"⟩⟩ := by
  intro env cmd atyp rest h
  simp only [CONNECT_COMMAND] at h
  simp [handle_client, handleClientM, requestStage, SessM.bind, SessM.throw,
    readExact, writeAll, emit, send_reply, encodeReply, putU16,
    UNSPECIFIED_ADDR, SOCKS_VERSION, NO_AUTHENTICATION_REQUIRED,
    CONNECT_COMMAND, RSV, ATYP_IPV4, ATYP_IPV6, REP_GENERAL_FAILURE, h]

/-- C5 witness: a BIND request (command 0x02) draws the general-failure
reply and an error, with no resolution or connect attempt. -/
theorem C5_unsupported_command_witness :
    handle_client okEnv (5 :: 1 :: 0 :: 5 :: 2 :: 0 :: 1 :: []) [] =
      ⟨[[SOCKS_VERSION, NO_AUTHENTICATION_REQUIRED],
        encodeReply REP_GENERAL_FAILURE UNSPECIFIED_ADDR],
       [], .error ⟨.unsupported, "Unsupported command"⟩⟩ :=
  C5_unsupported_command okEnv 2 1 [] (by decide)

/-- C7: the address decoder reads exactly 4 bytes for ATYP 0x01, exactly
16 bytes for ATYP 0x04, and for ATYP 0x03 one length byte followed by
exactly that many bytes decoded UTF-8-lossily into a domain string; every
other ATYP value fails with the unsupported-address-type error without
consuming any address bytes (the result is the same for every input). -/
theorem C7_decode_address :
    (∀ bs rest : List Nat, bs.length = 4 →
      decodeAddress ATYP_IPV4 (bs ++ rest) = .ok (.ipv4 bs, rest))
    ∧ (∀ bs rest : List Nat, bs.length = 16 →
      decodeAddress ATYP_IPV6 (bs ++ rest) = .ok (.ipv6 bs, rest))
    ∧ (∀ bs rest : List Nat, bs.length ≤ 255 →
      decodeAddress ATYP_DOMAIN_NAME (bs.length :: (bs ++ rest)) =
        .ok (.domain (utf8Lossy bs), rest))
    ∧ (∀ (atyp : Nat) (input : List Nat),
        atyp ≠ ATYP_IPV4 → atyp ≠ ATYP_DOMAIN_NAME → atyp ≠ ATYP_IPV6 →
      decodeAddress atyp input = .error .unsupportedAtyp) := by
  refine ⟨?_, ?_, ?_, ?_⟩
  · intro bs rest h
    have ha := takeExact_append bs rest
    rw [h] at ha
    simp [decodeAddress, ATYP_IPV4, ha]
  · intro bs rest h
    have ha := takeExact_append bs rest
    rw [h] at ha
    simp [decodeAddress, ATYP_IPV4, ATYP_DOMAIN_NAME, ATYP_IPV6, ha]
  · intro bs rest h
    simp [decodeAddress, ATYP_IPV4, ATYP_DOMAIN_NAME, ATYP_IPV6]
  · intro atyp input h1 h3 h4
    simp only [ATYP_IPV4] at h1
    simp only [ATYP_DOMAIN_NAME] at h3
    simp only [ATYP_IPV6] at h4
    simp [decodeAddress, ATYP_IPV4, ATYP_DOMAIN_NAME, ATYP_IPV6, h1, h3, h4]

/-- C7 witness: concrete decodings for all four address-type classes. -/
theorem C7_decode_address_witness :
    decodeAddress ATYP_IPV4 ([1, 2, 3, 4] ++ [0, 80]) =
      .ok (.ipv4 [1, 2, 3, 4], [0, 80])
    ∧ decodeAddress ATYP_IPV6
        ([1, 2, 3, 4, 5, 6, 7, 8, 9, 10, 11, 12, 13, 14, 15, 16] ++ [0, 80]) =
      .ok (.ipv6 [1, 2, 3, 4, 5, 6, 7, 8, 9, 10, 11, 12, 13, 14, 15, 16], [0, 80])
    ∧ decodeAddress ATYP_DOMAIN_NAME
        (([104, 105] : List Nat).length :: ([104, 105] ++ [0, 80])) =
      .ok (.domain (utf8Lossy [104, 105]), [0, 80])
    ∧ decodeAddress 9 [1, 2, 3] = .error .unsupportedAtyp :=
  ⟨C7_decode_address.1 [1, 2, 3, 4] [0, 80] (by decide),
   C7_decode_address.2.1 [1, 2, 3, 4, 5, 6, 7, 8, 9, 10, 11, 12, 13, 14, 15, 16]
     [0, 80] (by decide),
   C7_decode_address.2.2.1 [104, 105] [0, 80] (by decide),
   C7_decode_address.2.2.2 9 [1, 2, 3] (by decide) (by decide) (by decide)⟩

/-- C8: every reply is byte-exactly version 0x05, the reply code,
reserved 0x00, ATYP 0x01 plus 4 raw octets or ATYP 0x04 plus 16 raw
octets, then the 2-byte big-endian port; and the DST.PORT of a request is
read as 2 bytes big-endian (the resolution event carries
`p1 * 256 + p2`). -/
theorem C8_reply_wire_format :
    (∀ (rep p : Nat) (o : List Nat),
      encodeReply rep ⟨.v4 o, p⟩ =
        [SOCKS_VERSION, rep, RSV, ATYP_IPV4] ++ o ++ putU16 p)
    ∧ (∀ (rep p : Nat) (o : List Nat),
      encodeReply rep ⟨.v6 o, p⟩ =
        [SOCKS_VERSION, rep, RSV, ATYP_IPV6] ++ o ++ putU16 p)
    ∧ (∀ p : Nat, p < 65536 →
        putU16 p = [p / 256, p % 256] ∧ p / 256 < 256 ∧ p % 256 < 256 ∧
        (p / 256) * 256 + p % 256 = p)
    ∧ (∀ p1 p2 : Nat,
      (handle_client okEnv [5, 1, 0, 5, 1, 0, 1, 9, 9, 9, 9, p1, p2] []).events =
        [.lookup (.ipv4 [9, 9, 9, 9]) (p1 * 256 + p2),
         .connectAttempt sampleTarget, .relayStarted]) := by
  refine ⟨?_, ?_, ?_, ?_⟩
  · intro rep p o
    simp [encodeReply]
  · intro rep p o
    simp [encodeReply]
  · intro p h
    have h2 : p / 256 < 256 := by omega
    refine ⟨by simp [putU16, Nat.mod_eq_of_lt h2], h2, Nat.mod_lt _ (by omega), ?_⟩
    omega
  · intro p1 p2
    rfl

/-- C8 witness: the port 1080 is encoded big-endian as `[4, 56]`. -/
theorem C8_reply_wire_format_witness :
    putU16 1080 = [1080 / 256, 1080 % 256] ∧ 1080 / 256 < 256 ∧
      1080 % 256 < 256 ∧ (1080 / 256) * 256 + 1080 % 256 = 1080 :=
  C8_reply_wire_format.2.2.1 1080 (by decide)

/-- C9: configuration loading yields host `0.0.0.0` and port 1080 when
the config file is missing (load error), when the `config` section is
missing, or when the host/port keys are absent; and when a `port` key is
present with a value that does not parse as an integer, startup aborts
before any socket is bound.  When both keys are present and the port
parses, their values are used. -/
theorem C9_config_defaults_and_abort :
    (∀ e : String, get_config (.error e) = .ok ⟨"0.0.0.0", 1080⟩)
    ∧ (∀ doc : IniDoc, mapGet doc MAIN_CFG = none →
        get_config (.ok doc) = .ok ⟨"0.0.0.0", 1080⟩)
    ∧ (∀ (doc : IniDoc) (gc : List (String × Option String)),
        mapGet doc MAIN_CFG = some gc → mapGet gc "port" = none →
        mapGet gc "host" = none →
        get_config (.ok doc) = .ok ⟨"0.0.0.0", 1080⟩)
    ∧ (∀ (doc : IniDoc) (gc : List (String × Option String)) (v : String),
        mapGet doc MAIN_CFG = some gc → mapGet gc "port" = some (some v) →
        parseI32 v = none →
        startup (.ok doc) = .aborted "invalid port in config")
    ∧ (∀ (doc : IniDoc) (gc : List (String × Option String)) (v hostv : String)
        (n : Int),
        mapGet doc MAIN_CFG = some gc → mapGet gc "port" = some (some v) →
        parseI32 v = some n → mapGet gc "host" = some (some hostv) →
        get_config (.ok doc) = .ok ⟨hostv, n⟩) := by
  refine ⟨?_, ?_, ?_, ?_, ?_⟩
  · intro e
    rfl
  · intro doc h
    simp [get_config, h]
  · intro doc gc h1 h2 h3
    simp [get_config, h1, h2, h3]
  · intro doc gc v h1 h2 h3
    simp [startup, get_config, h1, h2, h3]
  · intro doc gc v hostv n h1 h2 h3 h4
    simp [get_config, h1, h2, h3, h4]

/-- C9 witness: a missing file yields the defaults, and a non-integer
`port` value aborts startup. -/
theorem C9_config_defaults_and_abort_witness :
    get_config (.error "file not found") = .ok ⟨"0.0.0.0", 1080⟩
    ∧ startup (.ok [("config", [("port", some "eighty")])]) =
        .aborted "invalid port in config" :=
  ⟨C9_config_defaults_and_abort.1 "file not found",
   C9_config_defaults_and_abort.2.2.2.1 [("config", [("port", some "eighty")])]
     [("port", some "eighty")] "eighty" (by decide) (by decide) (by decide)⟩

/-- C10: a session terminated by a bad version byte (either stage), a
zero NMETHODS count, or a non-zero reserved byte closes without any bytes
written on that failure path: such a session's only write, if any, is the
earlier method-acceptance `(0x05, 0x00)`, and no resolution or connect
event occurs, whatever the environment. -/
theorem C10_silent_failures :
    (∀ (env : Env) (v n : Nat) (rest : List Nat), v ≠ SOCKS_VERSION →
      handle_client env (v :: n :: rest) [] =
        ⟨[], [], .error ⟨.invalidData, "Unsupported SOCKS version"⟩⟩)
    ∧ (∀ (env : Env) (rest : List Nat),
      handle_client env (5 :: 0 :: rest) [] =
        ⟨[], [], .error ⟨.invalidData, "No methods offered"⟩⟩)
    ∧ (∀ (env : Env) (v c r a : Nat) (rest : List Nat), v ≠ SOCKS_VERSION →
      handle_client env (5 :: 1 :: 0 :: v :: c :: r :: a :: rest) [] =
        ⟨[[SOCKS_VERSION, NO_AUTHENTICATION_REQUIRED]], [],
         .error ⟨.invalidData, "Invalid SOCKS version in request"⟩⟩)
    ∧ (∀ (env : Env) (c r a : Nat) (rest : List Nat), r ≠ RSV →
      handle_client env (5 :: 1 :: 0 :: 5 :: c :: r :: a :: rest) [] =
        ⟨[[SOCKS_VERSION, NO_AUTHENTICATION_REQUIRED]], [],
         .error ⟨.invalidData, "Non-zero RSV byte"⟩⟩) := by
  refine ⟨?_, ?_, ?_, ?_⟩
  · intro env v n rest h
    simp only [SOCKS_VERSION] at h
    simp [handle_client, handleClientM, SessM.bind, SessM.throw, readExact,
      writeAll, SOCKS_VERSION, NO_AUTHENTICATION_REQUIRED, h]
  · intro env rest
    rfl
  · intro env v c r a rest h
    simp only [SOCKS_VERSION] at h
    simp [handle_client, handleClientM, requestStage, SessM.bind, SessM.throw,
      readExact, writeAll, SOCKS_VERSION, NO_AUTHENTICATION_REQUIRED, h]
  · intro env c r a rest h
    simp only [RSV] at h
    simp [handle_client, handleClientM, requestStage, SessM.bind, SessM.throw,
      readExact, writeAll, SOCKS_VERSION, NO_AUTHENTICATION_REQUIRED, RSV, h]

/-- C10 witness: concrete sessions for each of the four silent error
classes. -/
theorem C10_silent_failures_witness :
    handle_client okEnv (4 :: 1 :: [0]) [] =
      ⟨[], [], .error ⟨.invalidData, "Unsupported SOCKS version"⟩⟩
    ∧ handle_client okEnv (5 :: 0 :: []) [] =
      ⟨[], [], .error ⟨.invalidData, "No methods offered"⟩⟩
    ∧ handle_client okEnv (5 :: 1 :: 0 :: 4 :: 1 :: 0 :: 1 :: []) [] =
      ⟨[[SOCKS_VERSION, NO_AUTHENTICATION_REQUIRED]], [],
       .error ⟨.invalidData, "Invalid SOCKS version in request"⟩⟩
    ∧ handle_client okEnv (5 :: 1 :: 0 :: 5 :: 1 :: 7 :: 1 :: []) [] =
      ⟨[[SOCKS_VERSION, NO_AUTHENTICATION_REQUIRED]], [],
       .error ⟨.invalidData, "Non-zero RSV byte"⟩⟩ :=
  ⟨C10_silent_failures.1 okEnv 4 1 [0] (by decide),
   C10_silent_failures.2.1 okEnv [],
   C10_silent_failures.2.2.1 okEnv 4 1 0 1 [] (by decide),
   C10_silent_failures.2.2.2 okEnv 1 7 1 [] (by decide)⟩
